import Mathlib

/-!
Shallow embedding of the drinks CRUD backend (src/backend/src/api.py) and of
the collaborators it imports (auth decorator, ORM model), for checking the
natural-language specification against the code.

The request bodies, stored recipes and response bodies are modelled by a small
JSON value type.  HTTP handling is modelled by pure functions from the drink
store (a list of rows) and the request data to the next store and a response.
Python exceptions caught by a handler's `try/except` are modelled by `Option`
results inside the handler definitions.
-/

namespace DrinksApi

/-- JSON values, as produced by `request.get_json()` / `jsonify` / `json.dumps`. -/
inductive Json where
  | null : Json
  | bool : Bool → Json
  | num : Int → Json
  | str : String → Json
  | arr : List Json → Json
  | obj : List (String × Json) → Json

mutual

/-- Decidable equality of JSON values (hand-rolled: the nested `List`
occurrences defeat the deriving handler). -/
def Json.decEq : (a b : Json) → Decidable (a = b)
  | .null, .null => isTrue rfl
  | .null, .bool _ => isFalse (fun h => Json.noConfusion h)
  | .null, .num _ => isFalse (fun h => Json.noConfusion h)
  | .null, .str _ => isFalse (fun h => Json.noConfusion h)
  | .null, .arr _ => isFalse (fun h => Json.noConfusion h)
  | .null, .obj _ => isFalse (fun h => Json.noConfusion h)
  | .bool _, .null => isFalse (fun h => Json.noConfusion h)
  | .bool a, .bool b =>
    match (inferInstance : Decidable (a = b)) with
    | isTrue h => isTrue (congrArg Json.bool h)
    | isFalse h => isFalse (fun hh => h (Json.bool.inj hh))
  | .bool _, .num _ => isFalse (fun h => Json.noConfusion h)
  | .bool _, .str _ => isFalse (fun h => Json.noConfusion h)
  | .bool _, .arr _ => isFalse (fun h => Json.noConfusion h)
  | .bool _, .obj _ => isFalse (fun h => Json.noConfusion h)
  | .num _, .null => isFalse (fun h => Json.noConfusion h)
  | .num _, .bool _ => isFalse (fun h => Json.noConfusion h)
  | .num a, .num b =>
    match (inferInstance : Decidable (a = b)) with
    | isTrue h => isTrue (congrArg Json.num h)
    | isFalse h => isFalse (fun hh => h (Json.num.inj hh))
  | .num _, .str _ => isFalse (fun h => Json.noConfusion h)
  | .num _, .arr _ => isFalse (fun h => Json.noConfusion h)
  | .num _, .obj _ => isFalse (fun h => Json.noConfusion h)
  | .str _, .null => isFalse (fun h => Json.noConfusion h)
  | .str _, .bool _ => isFalse (fun h => Json.noConfusion h)
  | .str _, .num _ => isFalse (fun h => Json.noConfusion h)
  | .str a, .str b =>
    match (inferInstance : Decidable (a = b)) with
    | isTrue h => isTrue (congrArg Json.str h)
    | isFalse h => isFalse (fun hh => h (Json.str.inj hh))
  | .str _, .arr _ => isFalse (fun h => Json.noConfusion h)
  | .str _, .obj _ => isFalse (fun h => Json.noConfusion h)
  | .arr _, .null => isFalse (fun h => Json.noConfusion h)
  | .arr _, .bool _ => isFalse (fun h => Json.noConfusion h)
  | .arr _, .num _ => isFalse (fun h => Json.noConfusion h)
  | .arr _, .str _ => isFalse (fun h => Json.noConfusion h)
  | .arr as, .arr bs =>
    match Json.decEqList as bs with
    | isTrue h => isTrue (congrArg Json.arr h)
    | isFalse h => isFalse (fun hh => h (Json.arr.inj hh))
  | .arr _, .obj _ => isFalse (fun h => Json.noConfusion h)
  | .obj _, .null => isFalse (fun h => Json.noConfusion h)
  | .obj _, .bool _ => isFalse (fun h => Json.noConfusion h)
  | .obj _, .num _ => isFalse (fun h => Json.noConfusion h)
  | .obj _, .str _ => isFalse (fun h => Json.noConfusion h)
  | .obj _, .arr _ => isFalse (fun h => Json.noConfusion h)
  | .obj as, .obj bs =>
    match Json.decEqPairs as bs with
    | isTrue h => isTrue (congrArg Json.obj h)
    | isFalse h => isFalse (fun hh => h (Json.obj.inj hh))

/-- Decidable equality of JSON arrays. -/
def Json.decEqList : (a b : List Json) → Decidable (a = b)
  | [], [] => isTrue rfl
  | [], _ :: _ => isFalse (fun h => List.noConfusion h)
  | _ :: _, [] => isFalse (fun h => List.noConfusion h)
  | a :: as, b :: bs =>
    match Json.decEq a b, Json.decEqList as bs with
    | isTrue h1, isTrue h2 => isTrue (by rw [h1, h2])
    | isFalse h1, _ => isFalse (fun hh => h1 (List.cons.inj hh).1)
    | _, isFalse h2 => isFalse (fun hh => h2 (List.cons.inj hh).2)

/-- Decidable equality of JSON object field lists. -/
def Json.decEqPairs : (a b : List (String × Json)) → Decidable (a = b)
  | [], [] => isTrue rfl
  | [], _ :: _ => isFalse (fun h => List.noConfusion h)
  | _ :: _, [] => isFalse (fun h => List.noConfusion h)
  | (k, v) :: as, (l, w) :: bs =>
    match (inferInstance : Decidable (k = l)), Json.decEq v w, Json.decEqPairs as bs with
    | isTrue h1, isTrue h2, isTrue h3 => isTrue (by rw [h1, h2, h3])
    | isFalse h1, _, _ => isFalse (fun hh => h1 (Prod.mk.inj (List.cons.inj hh).1).1)
    | _, isFalse h2, _ => isFalse (fun hh => h2 (Prod.mk.inj (List.cons.inj hh).1).2)
    | _, _, isFalse h3 => isFalse (fun hh => h3 (List.cons.inj hh).2)

end

instance : DecidableEq Json := Json.decEq

/-- Python truthiness of a JSON value (`if title_request:` etc. in api.py):
`None`, `False`, `0`, `""`, `[]`, `{}` are falsy, everything else truthy. -/
def Json.truthy : Json → Bool
  | .null => false
  | .bool b => b
  | .num n => n != 0
  | .str s => !s.isEmpty
  | .arr xs => !xs.isEmpty
  | .obj fs => !fs.isEmpty

/-- Dictionary lookup: `d[key]` / `d.get(key)` on a JSON object; `none` models
both a missing key and a non-dict receiver (where Python raises). -/
def Json.get : Json → String → Option Json
  | .obj fields, key => (fields.find? (fun p => p.1 == key)).map Prod.snd
  | _, _ => none

/-- Lookup defaulting to JSON null, used by the serialization projections
(the long view includes keys with null value when absent, per the spec). -/
def Json.getD (j : Json) (key : String) : Json := (j.get key).getD .null

/-- One row of the drinks table.  `title` and `recipe` hold the JSON values the
handlers assign verbatim (`drink.title = request_json['title']`,
`drink.recipe = json.dumps(...)`); the serialized text of `recipe` is
identified with the JSON value it serializes. -/
structure Drink where
  id : Nat
  title : Json
  recipe : Json
deriving DecidableEq

/-- The drinks table. -/
abbrev Store := List Drink

/-- `AuthError` as used by api.py's handler: `error.status_code` and
`error.error['description']` (plus the machine-readable code the spec
requires each failure to carry). -/
structure AuthError where
  status_code : Nat
  code : String
  description : String
deriving DecidableEq

/-- An HTTP response: status code and JSON body. -/
structure Response where
  status : Nat
  body : Json
deriving DecidableEq

/-! ## Error handlers (api.py lines 171-246, embedded verbatim) -/

/-- The `jsonify({'success': ..., 'error': ..., 'message': ...})` body shape
shared by every error handler in api.py. -/
def errorEnvelope (success : Bool) (code : Nat) (message : String) : Json :=
  .obj [("success", .bool success), ("error", .num code), ("message", .str message)]

/-- `@app.errorhandler(422)` -/
def unprocessable : Response := ⟨422, errorEnvelope false 422 "unprocessable"⟩

/-- `@app.errorhandler(404)` — note: the source returns `'success': True` here. -/
def not_found : Response := ⟨404, errorEnvelope true 404 "Resource Not Found"⟩

/-- `@app.errorhandler(AuthError)` -/
def auth_error (e : AuthError) : Response :=
  ⟨e.status_code, errorEnvelope false e.status_code e.description⟩

/-- `@app.errorhandler(400)` -/
def bad_request : Response := ⟨400, errorEnvelope false 400 "Bad Request"⟩

/-- `@app.errorhandler(401)` -/
def unauthorized : Response := ⟨401, errorEnvelope false 401 "Unauthorized"⟩

/-- `@app.errorhandler(405)` — note: the source returns `'success': True` here. -/
def method_not_allowed : Response := ⟨405, errorEnvelope true 405 "Method Not Allowed"⟩

/-- `@app.errorhandler(500)` -/
def internal_server_error : Response := ⟨500, errorEnvelope false 500 "Internal Server Error"⟩

/-! ## Auth (modelled from the spec; src/backend/src/auth/auth.py is not under src/) -/

/-- Modelled from the spec: the decoded bearer token seen by the Token
Verifier — validity of its decoding/signature/standard claims, and the
`permissions` claim, which may be absent entirely (malformed-claims case). -/
structure Token where
  decodable : Bool
  keyFound : Bool
  signatureValid : Bool
  expired : Bool
  issuerOk : Bool
  audienceOk : Bool
  permissions : Option (List String)
deriving DecidableEq

/-- Modelled from the spec: the `Authorization` header — absent, not of the
form `Bearer <token>`, or a bearer token. -/
inductive AuthHeader where
  | absent : AuthHeader
  | malformed : AuthHeader
  | bearer : Token → AuthHeader
deriving DecidableEq

/-- Modelled from the spec: the Token Verifier (`verify(rawHeaderValue) -> Claims`,
auth module not under src/).  Fails with a 401 `AuthError` when the header is
absent or malformed, the token cannot be decoded, no matching signing key
exists, the token is expired, or its signature/issuer/audience do not check
out; each failure path carries a distinct code and description. -/
def verify_decode_jwt : AuthHeader → Except AuthError Token
  | .absent => .error ⟨401, "authorization_header_missing", "Authorization header is expected."⟩
  | .malformed => .error ⟨401, "invalid_header", "Authorization header must be a bearer token."⟩
  | .bearer t =>
    if !t.decodable then
      .error ⟨401, "invalid_header", "Unable to parse authentication token."⟩
    else if !t.keyFound then
      .error ⟨401, "invalid_header", "Unable to find the appropriate key."⟩
    else if t.expired then
      .error ⟨401, "token_expired", "Token expired."⟩
    else if !(t.signatureValid && t.issuerOk && t.audienceOk) then
      .error ⟨401, "invalid_claims", "Incorrect claims. Please, check the audience and issuer."⟩
    else
      .ok t

/-- Modelled from the spec: the Scope Authorizer
(`authorize(claims, required) -> void`, auth module not under src/).  Fails
when the `permissions` claim is absent (distinct error code) or does not
contain the required permission; pure check, 401 per the spec's auth-gating
property. -/
def check_permissions (required : String) (t : Token) : Except AuthError Unit :=
  match t.permissions with
  | none => .error ⟨401, "invalid_claims", "Permissions not included in JWT."⟩
  | some ps =>
    if ps.contains required then .ok ()
    else .error ⟨401, "unauthorized", "Permission not found."⟩

/-- Modelled from the spec: the `@requires_auth(permission)` decorator (auth
module not under src/) — verify the header, then check the required
permission; on success the handler runs with the decoded payload. -/
def requires_auth (permission : String) (h : AuthHeader) : Except AuthError Token :=
  match verify_decode_jwt h with
  | .error e => .error e
  | .ok t =>
    match check_permissions permission t with
    | .error e => .error e
    | .ok _ => .ok t

/-- Whether a token carries the given scope in its `permissions` claim. -/
def tokenHasScope (t : Token) (s : String) : Bool :=
  match t.permissions with
  | none => false
  | some ps => ps.contains s

/-! ## Persistence and serialization (modelled from the spec;
src/backend/src/database/models.py is not under src/) -/

/-- Whether some stored row already has this title. -/
def titleTaken (store : Store) (t : Json) : Bool :=
  store.any (fun x => x.title == t)

/-- Modelled from the spec: `Drink.insert()` — the persistence layer enforces
title uniqueness as a hard constraint (its only stated constraint); a
violation raises, modelled by `none`, and persists nothing. -/
def insertDrink (store : Store) (d : Drink) : Option Store :=
  if titleTaken store d.title then none else some (store ++ [d])

/-- `Drink.query.filter(Drink.id == id).one_or_none()` — ids are the primary
key, so at most one row matches. -/
def findDrink (store : Store) (id : Nat) : Option Drink :=
  store.find? (fun d => d.id == id)

/-- Writing back a mutated row: every row with the updated row's id (the
primary key, hence at most one) is replaced by it. -/
def replaceDrink (store : Store) (u : Drink) : Store :=
  store.map (fun x => if x.id = u.id then u else x)

/-- Modelled from the spec: `Drink.update()` commits the mutated row; the
commit violates the persistence layer's uniqueness constraint (and raises,
modelled by `none`) exactly when the title actually changed to one some other
row already has. -/
def updateCommit (store : Store) (old upd : Drink) : Option Store :=
  if upd.title ≠ old.title ∧ titleTaken (store.filter (fun x => x.id != upd.id)) upd.title
  then none
  else some (replaceDrink store upd)

/-- Modelled from the spec: one recipe entry of the short projection —
`{color, parts}`, omitting the ingredient name. -/
def shortEntry (e : Json) : Json :=
  .obj [("color", e.getD "color"), ("parts", e.getD "parts")]

/-- Modelled from the spec: one recipe entry of the long projection —
`{name, color, parts}`, with null standing in for an absent key. -/
def longEntry (e : Json) : Json :=
  .obj [("name", e.getD "name"), ("color", e.getD "color"), ("parts", e.getD "parts")]

/-- Modelled from the spec: a stored recipe exposed as a structured list with
entries projected by `f`; the spec defines the projections only on recipes
that are lists. -/
def projRecipe (f : Json → Json) : Json → Json
  | .arr xs => .arr (xs.map f)
  | _ => .null

/-- Modelled from the spec: `Drink.short()` — `{id, title, recipe: [{color, parts}]}`. -/
def Drink.short (d : Drink) : Json :=
  .obj [("id", .num (Int.ofNat d.id)), ("title", d.title), ("recipe", projRecipe shortEntry d.recipe)]

/-- Modelled from the spec: `Drink.long()` — `{id, title, recipe: [{name, color, parts}]}`. -/
def Drink.long (d : Drink) : Json :=
  .obj [("id", .num (Int.ofNat d.id)), ("title", d.title), ("recipe", projRecipe longEntry d.recipe)]

/-- Modelled from the spec: `db_drop_and_create_all()` (models module not
under src/), as documented at its call site in api.py — "THIS WILL DROP ALL
RECORDS AND START YOUR DB FROM SCRATCH": every previously persisted row is
destroyed and the schema recreated empty. -/
def db_drop_and_create_all (_persisted : Store) : Store := []

/-- api.py line 20: `db_drop_and_create_all()` runs at module import, before
any request is served, so this is the store the first request sees. -/
def startupStore (persisted : Store) : Store := db_drop_and_create_all persisted

/-! ## Route handlers (api.py lines 31-162, embedded verbatim) -/

/-- The `jsonify({'success': True, 'drinks': ...}), 200` success shape. -/
def drinksEnvelope (drinks : List Json) : Response :=
  ⟨200, .obj [("success", .bool true), ("drinks", .arr drinks)]⟩

/-- `GET /drinks` handler body (after `@requires_auth('get:drinks')`). -/
def get_drinks (store : Store) : Store × Response :=
  (store, drinksEnvelope (store.map Drink.short))

/-- `GET /drinks-detail` handler body (after `@requires_auth('get:drinks-detail')`). -/
def get_drink_detail (store : Store) : Store × Response :=
  (store, drinksEnvelope (store.map Drink.long))

/-- `if isinstance(recipe_request, dict): recipe_request = [recipe_request]` -/
def normalizeRecipe : Json → Json
  | .obj fields => .arr [.obj fields]
  | r => r

/-- `POST /drinks` handler body.  Inside the `try`: read `recipe` (KeyError
when absent), normalize a dict to a one-element list, read `title`, insert;
any exception aborts with 400 (the bad-request envelope) and persists
nothing.  `nextId` is the id the persistence layer would assign. -/
def create_drink (store : Store) (nextId : Nat) (request_json : Json) : Store × Response :=
  match request_json.get "recipe" with
  | none => (store, bad_request)
  | some recipe_request =>
    match request_json.get "title" with
    | none => (store, bad_request)
    | some title_request =>
      let drink : Drink := ⟨nextId, title_request, normalizeRecipe recipe_request⟩
      match insertDrink store drink with
      | none => (store, bad_request)
      | some store2 => (store2, drinksEnvelope [drink.long])

/-- The two conditional assignments inside the PATCH handler's `try`: only a
present-and-truthy `title` or `recipe` field of the body overwrites the row,
and the recipe is stored verbatim (`json.dumps(request_json['recipe'])`), not
normalized. -/
def applyUpdate (drink_query : Drink) (body : Json) : Drink :=
  let d1 : Drink :=
    match body.get "title" with
    | some t => if t.truthy then { drink_query with title := t } else drink_query
    | none => drink_query
  match body.get "recipe" with
  | some r => if r.truthy then { d1 with recipe := r } else d1
  | none => d1

/-- `PATCH /drinks/<id>` handler body.  404 when the id is not found (checked
before the `try`); inside the `try`, the conditional field assignments of
`applyUpdate` run and the row is committed; any exception (including a
non-dict body, where `.get` raises) aborts with 400. -/
def update_drink (store : Store) (id : Nat) (request_json : Json) : Store × Response :=
  match findDrink store id with
  | none => (store, not_found)
  | some drink_query =>
    match request_json with
    | .obj fields =>
      let d2 : Drink := applyUpdate drink_query (.obj fields)
      match updateCommit store drink_query d2 with
      | none => (store, bad_request)
      | some store2 => (store2, drinksEnvelope [d2.long])
    | _ => (store, bad_request)

/-- `DELETE /drinks/<id>` handler body.  404 when the id is not found;
otherwise the row is deleted and `{'success': True, 'delete': id}` returned. -/
def delete_drink (store : Store) (id : Nat) : Store × Response :=
  match findDrink store id with
  | none => (store, not_found)
  | some _ =>
    (store.filter (fun x => x.id != id), ⟨200, .obj [("success", .bool true), ("delete", .num (Int.ofNat id))]⟩)

/-! ## Routing: scope per route, auth gate before the handler -/

/-- The five routes with the request data each consumes. -/
inductive ApiRequest where
  | listSummary : ApiRequest
  | listDetail : ApiRequest
  | create : Json → ApiRequest
  | patch : Nat → Json → ApiRequest
  | delete : Nat → ApiRequest
deriving DecidableEq

/-- The permission each route's `@requires_auth(...)` decorator demands. -/
def requiredPermission : ApiRequest → String
  | .listSummary => "get:drinks"
  | .listDetail => "get:drinks-detail"
  | .create _ => "post:drinks"
  | .patch _ _ => "patch:drinks"
  | .delete _ => "delete:drinks"

/-- The handler body of a route, run only after the auth gate passes. -/
def runHandler (req : ApiRequest) (nextId : Nat) (store : Store) : Store × Response :=
  match req with
  | .listSummary => get_drinks store
  | .listDetail => get_drink_detail store
  | .create body => create_drink store nextId body
  | .patch id body => update_drink store id body
  | .delete id => delete_drink store id

/-- One request through the app: the `requires_auth` gate runs first; an
`AuthError` is rendered by the `@app.errorhandler(AuthError)` handler and the
route handler never runs; otherwise the handler runs on the store. -/
def dispatch (auth : AuthHeader) (req : ApiRequest) (nextId : Nat) (store : Store) : Store × Response :=
  match requires_auth (requiredPermission req) auth with
  | .error e => (store, auth_error e)
  | .ok _ => runHandler req nextId store

/-! ## Concrete fixtures used by witnesses and counterexamples -/

/-- Whether a JSON value is a list. -/
def Json.isList : Json → Bool
  | .arr _ => true
  | _ => false

/-- A concrete recipe entry. -/
def sampleEntry : Json :=
  .obj [("name", .str "water"), ("color", .str "blue"), ("parts", .num 1)]

/-- A concrete second recipe entry, submitted as a bare object. -/
def singleEntry : Json :=
  .obj [("name", .str "lemon"), ("color", .str "yellow"), ("parts", .num 2)]

/-- A concrete stored drink. -/
def sampleDrink : Drink := ⟨1, .str "Water", .arr [sampleEntry]⟩

/-- A fully valid token carrying the given permissions. -/
def goodToken (perms : List String) : Token :=
  ⟨true, true, true, false, true, true, some perms⟩

/-! ## Helper lemmas -/

theorem verify_error_status (h : AuthHeader) (e : AuthError)
    (he : verify_decode_jwt h = .error e) : e.status_code = 401 := by
  cases h with
  | absent => injection he with h2; rw [← h2]
  | malformed => injection he with h2; rw [← h2]
  | bearer t =>
    simp only [verify_decode_jwt] at he
    split_ifs at he
    · injection he with h2; rw [← h2]
    · injection he with h2; rw [← h2]
    · injection he with h2; rw [← h2]
    · injection he with h2; rw [← h2]

theorem check_permissions_error_status (required : String) (t : Token) (e : AuthError)
    (he : check_permissions required t = .error e) : e.status_code = 401 := by
  cases hp : t.permissions with
  | none =>
    simp only [check_permissions, hp] at he
    injection he with h2; rw [← h2]
  | some ps =>
    simp only [check_permissions, hp] at he
    split_ifs at he
    injection he with h2; rw [← h2]

theorem requires_auth_error_status (perm : String) (h : AuthHeader) (e : AuthError)
    (he : requires_auth perm h = .error e) : e.status_code = 401 := by
  cases hv : verify_decode_jwt h with
  | error e2 =>
    simp only [requires_auth, hv] at he
    injection he with h2
    exact h2 ▸ verify_error_status h e2 hv
  | ok t =>
    cases hc : check_permissions perm t with
    | error e2 =>
      simp only [requires_auth, hv, hc] at he
      injection he with h2
      exact h2 ▸ check_permissions_error_status perm t e2 hc
    | ok u =>
      simp only [requires_auth, hv, hc] at he
      exact Except.noConfusion he

theorem verify_ok (h : AuthHeader) (t : Token) (ho : verify_decode_jwt h = .ok t) :
    h = .bearer t ∧ t.expired = false := by
  cases h with
  | absent => exact Except.noConfusion ho
  | malformed => exact Except.noConfusion ho
  | bearer t2 =>
    simp only [verify_decode_jwt] at ho
    split_ifs at ho with h1 h2 h3 h4
    injection ho with h5
    subst h5
    exact ⟨rfl, by simpa using h3⟩

theorem check_permissions_ok (required : String) (t : Token) (u : Unit)
    (hc : check_permissions required t = .ok u) : tokenHasScope t required = true := by
  cases hp : t.permissions with
  | none => simp only [check_permissions, hp] at hc; exact Except.noConfusion hc
  | some ps =>
    simp only [check_permissions, hp] at hc
    split_ifs at hc with h1
    simp only [tokenHasScope, hp]
    exact h1

theorem requires_auth_ok (perm : String) (h : AuthHeader) (t : Token)
    (ho : requires_auth perm h = .ok t) :
    h = .bearer t ∧ t.expired = false ∧ tokenHasScope t perm = true := by
  cases hv : verify_decode_jwt h with
  | error e => simp only [requires_auth, hv] at ho; exact Except.noConfusion ho
  | ok t2 =>
    cases hc : check_permissions perm t2 with
    | error e => simp only [requires_auth, hv, hc] at ho; exact Except.noConfusion ho
    | ok u =>
      simp only [requires_auth, hv, hc] at ho
      injection ho with h2
      subst h2
      obtain ⟨hb, hex⟩ := verify_ok h t2 hv
      exact ⟨hb, hex, check_permissions_ok perm t2 u hc⟩

theorem findDrink_mem (store : Store) (id : Nat) (d : Drink)
    (h : findDrink store id = some d) : d ∈ store ∧ d.id = id := by
  refine ⟨List.mem_of_find?_eq_some h, ?_⟩
  have := List.find?_some h
  simpa using this

theorem findDrink_replace (store : Store) (u d : Drink)
    (h : findDrink store u.id = some d) :
    findDrink (replaceDrink store u) u.id = some u := by
  induction store with
  | nil => simp [findDrink] at h
  | cons x xs ih =>
    by_cases hx : x.id = u.id
    · simp [findDrink, replaceDrink, hx]
    · simp only [findDrink, replaceDrink, List.map_cons, if_neg hx] at h ⊢
      rw [List.find?_cons_of_neg _ (by simpa using hx)] at h
      rw [List.find?_cons_of_neg _ (by simpa using hx)]
      exact ih h

theorem errorEnvelope_get (success : Bool) (code : Nat) (message : String) :
    (errorEnvelope success code message).get "success" = some (.bool success) ∧
    (errorEnvelope success code message).get "error" = some (.num code) ∧
    (errorEnvelope success code message).get "message" = some (.str message) :=
  ⟨rfl, rfl, rfl⟩

theorem truthy_ne (j : Json) (h : j.truthy = true) : j ≠ .str "" ∧ j ≠ .arr [] := by
  constructor <;> rintro rfl <;> exact absurd h (by decide)

theorem updateCommit_cases (store : Store) (old upd : Drink) :
    updateCommit store old upd = none ∨
    updateCommit store old upd = some (replaceDrink store upd) := by
  unfold updateCommit
  split_ifs
  · exact Or.inl rfl
  · exact Or.inr rfl

theorem updateCommit_same_title (store : Store) (old upd : Drink)
    (h : upd.title = old.title) :
    updateCommit store old upd = some (replaceDrink store upd) := by
  unfold updateCommit
  rw [if_neg]
  rintro ⟨h1, _⟩
  exact h1 h

theorem replaceDrink_self (store : Store) (d : Drink)
    (hids : ∀ x ∈ store, x.id = d.id → x = d) : replaceDrink store d = store := by
  unfold replaceDrink
  conv_rhs => rw [← List.map_id store]
  refine List.map_congr_left ?_
  intro x hx
  by_cases hxe : x.id = d.id
  · rw [if_pos hxe]; exact (hids x hx hxe).symm
  · rw [if_neg hxe]; rfl

theorem applyUpdate_id (d : Drink) (body : Json) : (applyUpdate d body).id = d.id := by
  unfold applyUpdate
  rcases body.get "title" with _ | t <;> rcases body.get "recipe" with _ | r <;>
    simp only [] <;> split_ifs <;> rfl

theorem applyUpdate_title (d : Drink) (body : Json) :
    (applyUpdate d body).title = d.title ∨ (applyUpdate d body).title.truthy = true := by
  cases hT : body.get "title" with
  | none =>
    cases hR : body.get "recipe" with
    | none => simp [applyUpdate, hT, hR]
    | some r => simp only [applyUpdate, hT, hR]; split_ifs <;> simp_all
  | some t =>
    cases hR : body.get "recipe" with
    | none => simp only [applyUpdate, hT, hR]; split_ifs <;> simp_all
    | some r => simp only [applyUpdate, hT, hR]; split_ifs <;> simp_all

theorem applyUpdate_recipe (d : Drink) (body : Json) :
    (applyUpdate d body).recipe = d.recipe ∨ (applyUpdate d body).recipe.truthy = true := by
  cases hT : body.get "title" with
  | none =>
    cases hR : body.get "recipe" with
    | none => simp [applyUpdate, hT, hR]
    | some r => simp only [applyUpdate, hT, hR]; split_ifs <;> simp_all
  | some t =>
    cases hR : body.get "recipe" with
    | none => simp only [applyUpdate, hT, hR]; split_ifs <;> simp_all
    | some r => simp only [applyUpdate, hT, hR]; split_ifs <;> simp_all

theorem applyUpdate_recipe_absent (d : Drink) (body : Json)
    (h : body.get "recipe" = none) : (applyUpdate d body).recipe = d.recipe := by
  cases hT : body.get "title" with
  | none => simp [applyUpdate, hT, h]
  | some t =>
    simp only [applyUpdate, hT, h]
    split_ifs <;> rfl

theorem update_drink_found (store : Store) (id : Nat) (d : Drink)
    (fields : List (String × Json)) (hd : findDrink store id = some d) :
    update_drink store id (.obj fields)
      = match updateCommit store d (applyUpdate d (.obj fields)) with
        | none => (store, bad_request)
        | some store2 => (store2, drinksEnvelope [(applyUpdate d (.obj fields)).long]) := by
  simp only [update_drink, hd]

theorem findDrink_after_replace (store : Store) (id : Nat) (d d2 : Drink)
    (hd : findDrink store id = some d) (hid2 : d2.id = d.id) :
    findDrink (replaceDrink store d2) id = some d2 := by
  have hid : d.id = id := (findDrink_mem store id d hd).2
  have h2 := findDrink_replace store d2 d (by rw [hid2, hid]; exact hd)
  rw [hid2, hid] at h2
  exact h2

theorem update_drink_find_result (store : Store) (id : Nat) (d : Drink)
    (fields : List (String × Json)) (hd : findDrink store id = some d) :
    ∃ u, findDrink (update_drink store id (.obj fields)).1 id = some u ∧
      (u = d ∨ u = applyUpdate d (.obj fields)) := by
  rw [update_drink_found store id d fields hd]
  rcases updateCommit_cases store d (applyUpdate d (.obj fields)) with h | h
  · simp only [h]
    exact ⟨d, hd, Or.inl rfl⟩
  · simp only [h]
    exact ⟨applyUpdate d (.obj fields),
      findDrink_after_replace store id d _ hd (applyUpdate_id d _), Or.inr rfl⟩

/-! ## Claim theorems -/

/-- C1: on every route, a request with no Authorization header, an expired
token, or a token lacking the route's required scope yields a 401 response
with success:false (and error:401); the store is unchanged and the response
does not depend on the store at all, so the handler body never runs and the
storage layer is neither read nor written. -/
theorem C1_auth_gating (store : Store) (nextId : Nat) (req : ApiRequest) (auth : AuthHeader)
    (h : auth = .absent ∨ ∃ t, auth = .bearer t ∧
        (t.expired = true ∨ tokenHasScope t (requiredPermission req) = false)) :
    (dispatch auth req nextId store).2.status = 401 ∧
    (dispatch auth req nextId store).2.body.get "success" = some (.bool false) ∧
    (dispatch auth req nextId store).2.body.get "error" = some (.num 401) ∧
    (dispatch auth req nextId store).1 = store ∧
    (∀ store2 : Store, (dispatch auth req nextId store2).2 = (dispatch auth req nextId store).2) := by
  cases hra : requires_auth (requiredPermission req) auth with
  | ok t =>
    exfalso
    obtain ⟨hb, hexp, hscope⟩ := requires_auth_ok _ _ _ hra
    rcases h with h | ⟨t2, ht2, hbad⟩
    · rw [h] at hb; exact AuthHeader.noConfusion hb
    · rw [ht2] at hb
      injection hb with h3
      subst h3
      rcases hbad with hbad | hbad
      · rw [hexp] at hbad; exact Bool.noConfusion hbad
      · rw [hscope] at hbad; exact Bool.noConfusion hbad
  | error e =>
    have h401 := requires_auth_error_status _ _ _ hra
    have hd : ∀ s : Store, dispatch auth req nextId s = (s, auth_error e) := by
      intro s; simp only [dispatch, hra]
    rw [hd store]
    refine ⟨by simp [auth_error, h401], ?_, ?_, rfl, fun s2 => by rw [hd s2]⟩
    · exact (errorEnvelope_get false e.status_code e.description).1
    · have h2 : (auth_error e).body.get "error" = some (.num e.status_code) :=
        (errorEnvelope_get false e.status_code e.description).2.1
      rw [h2, h401]
      decide

theorem C1_auth_gating_witness :
    (dispatch .absent .listSummary 1 [sampleDrink]).2.status = 401 ∧
    (dispatch .absent .listSummary 1 [sampleDrink]).2.body.get "success" = some (.bool false) ∧
    (dispatch .absent .listSummary 1 [sampleDrink]).1 = [sampleDrink] :=
  ⟨(C1_auth_gating [sampleDrink] 1 .listSummary .absent (Or.inl rfl)).1,
   (C1_auth_gating [sampleDrink] 1 .listSummary .absent (Or.inl rfl)).2.1,
   (C1_auth_gating [sampleDrink] 1 .listSummary .absent (Or.inl rfl)).2.2.2.1⟩

/-- C2: the claim of a uniform `{success:false, error, message}` envelope
fails on the code: the 400/401/422/500 handlers do return success:false, but
the 404 and 405 handlers return success:true, contradicting the handler
contract documented in api.py itself. -/
theorem C2_error_envelope_uniformity :
    bad_request.body.get "success" = some (.bool false) ∧
    unauthorized.body.get "success" = some (.bool false) ∧
    unprocessable.body.get "success" = some (.bool false) ∧
    internal_server_error.body.get "success" = some (.bool false) ∧
    not_found.body.get "success" = some (.bool true) ∧
    method_not_allowed.body.get "success" = some (.bool true) := by
  decide

/-- C5: PATCH and DELETE on a non-existent id do return status 404 with
error:404 and leave the store unchanged, but the body carries success:true
(the buggy 404 handler), not the success:false the claim states. -/
theorem C5_not_found_responses :
    (dispatch (.bearer (goodToken ["patch:drinks"])) (.patch 5 (.obj [("title", .str "X")])) 2 [sampleDrink]).2.status = 404 ∧
    (dispatch (.bearer (goodToken ["patch:drinks"])) (.patch 5 (.obj [("title", .str "X")])) 2 [sampleDrink]).2.body.get "error" = some (.num 404) ∧
    (dispatch (.bearer (goodToken ["patch:drinks"])) (.patch 5 (.obj [("title", .str "X")])) 2 [sampleDrink]).1 = [sampleDrink] ∧
    (dispatch (.bearer (goodToken ["patch:drinks"])) (.patch 5 (.obj [("title", .str "X")])) 2 [sampleDrink]).2.body.get "success" = some (.bool true) ∧
    (dispatch (.bearer (goodToken ["delete:drinks"])) (.delete 5) 2 [sampleDrink]).2.status = 404 ∧
    (dispatch (.bearer (goodToken ["delete:drinks"])) (.delete 5) 2 [sampleDrink]).2.body.get "error" = some (.num 404) ∧
    (dispatch (.bearer (goodToken ["delete:drinks"])) (.delete 5) 2 [sampleDrink]).1 = [sampleDrink] ∧
    (dispatch (.bearer (goodToken ["delete:drinks"])) (.delete 5) 2 [sampleDrink]).2.body.get "success" = some (.bool true) := by
  decide

/-- C9: the `AuthError` handler relays the failure verbatim: HTTP status and
body `error` field both equal the failure's status_code, success is false,
and the message is exactly the failure's description. -/
theorem C9_auth_error_relay (e : AuthError) :
    (auth_error e).status = e.status_code ∧
    (auth_error e).body.get "success" = some (.bool false) ∧
    (auth_error e).body.get "error" = some (.num e.status_code) ∧
    (auth_error e).body.get "message" = some (.str e.description) :=
  ⟨rfl, (errorEnvelope_get false e.status_code e.description).1,
   (errorEnvelope_get false e.status_code e.description).2.1,
   (errorEnvelope_get false e.status_code e.description).2.2⟩

/-- C10: at startup (module import) `db_drop_and_create_all` rebuilds the
store from scratch before any request is served: the resulting store does not
depend on what was persisted before, no previously persisted item survives,
and every request served from boot behaves identically whatever the
pre-restart data was. -/
theorem C10_startup_drops_all (prev1 prev2 : Store) (d : Drink) (hd : d ∈ prev1) :
    startupStore prev1 = startupStore prev2 ∧
    d ∉ startupStore prev1 ∧
    (∀ (auth : AuthHeader) (req : ApiRequest) (nextId : Nat),
      dispatch auth req nextId (startupStore prev1) = dispatch auth req nextId (startupStore prev2)) :=
  ⟨rfl, by simp [startupStore, db_drop_and_create_all], fun _ _ _ => rfl⟩

theorem C10_startup_drops_all_witness :
    sampleDrink ∈ [sampleDrink] ∧ sampleDrink ∉ startupStore [sampleDrink] :=
  ⟨List.mem_singleton.mpr rfl,
   (C10_startup_drops_all [sampleDrink] [] sampleDrink (List.mem_singleton.mpr rfl)).2.1⟩

/-- C3 counterexample: updating an existing drink with `recipe` set to a
single entry object stores that object itself — the stored recipe is not a
list — refuting the part of the claim that extends the list-shape invariant
to the update operation. -/
theorem C3_update_counterexample :
    (update_drink [sampleDrink] 1 (.obj [("recipe", singleEntry)])).1.map
        (fun d => d.recipe) = [singleEntry] ∧
    (update_drink [sampleDrink] 1 (.obj [("recipe", singleEntry)])).1.map
        (fun d => d.recipe.isList) = [false] ∧
    (update_drink [sampleDrink] 1 (.obj [("recipe", singleEntry)])).2.status = 200 := by
  decide

/-- C3 amended: the create operation normalizes a single-object recipe to a
one-element list, so creating with the object equals creating with the
one-element list; the update operation performs no normalization and stores
a present-and-truthy recipe value exactly as submitted. -/
theorem C3_recipe_normalization (store : Store) (nextId : Nat) (t r : Json)
    (fields : List (String × Json)) (id : Nat) (d : Drink)
    (hd : findDrink store id = some d) (hr : r.truthy = true) :
    create_drink store nextId (.obj [("title", t), ("recipe", .obj fields)])
      = create_drink store nextId (.obj [("title", t), ("recipe", .arr [.obj fields])]) ∧
    (findDrink (update_drink store id (.obj [("recipe", r)])).1 id).map
        (fun u => u.recipe) = some r := by
  constructor
  · rfl
  · have happ : applyUpdate d (.obj [("recipe", r)]) = { d with recipe := r } := by
      simp only [applyUpdate,
        show (Json.obj [("recipe", r)]).get "title" = none from rfl,
        show (Json.obj [("recipe", r)]).get "recipe" = some r from rfl, hr, if_true]
    rw [update_drink_found store id d [("recipe", r)] hd, happ]
    simp only [updateCommit_same_title store d { d with recipe := r } rfl]
    rw [findDrink_after_replace store id d { d with recipe := r } hd rfl]
    rfl

theorem C3_recipe_normalization_witness :
    create_drink [sampleDrink] 2 (.obj [("title", .str "W"), ("recipe", singleEntry)])
      = create_drink [sampleDrink] 2 (.obj [("title", .str "W"), ("recipe", .arr [singleEntry])]) ∧
    (findDrink (update_drink [sampleDrink] 1 (.obj [("recipe", singleEntry)])).1 1).map
        (fun u => u.recipe) = some singleEntry :=
  ⟨(C3_recipe_normalization [sampleDrink] 2 (.str "W") singleEntry
      [("name", .str "lemon"), ("color", .str "yellow"), ("parts", .num 2)]
      1 sampleDrink rfl rfl).1,
   (C3_recipe_normalization [sampleDrink] 2 (.str "W") singleEntry
      [("name", .str "lemon"), ("color", .str "yellow"), ("parts", .num 2)]
      1 sampleDrink rfl rfl).2⟩

/-- C4: update only overwrites fields that are present and truthy: a
title-only update leaves the stored recipe identical; an empty body changes
nothing and still yields the 200 success envelope with the unchanged entity;
and on any body whatsoever, a changed title is never the empty string and a
changed recipe is never the empty list. -/
theorem C4_update_frame (store : Store) (id : Nat) (d : Drink)
    (hd : findDrink store id = some d)
    (hids : ∀ x ∈ store, x.id = d.id → x = d)
    (t : Json) (body : Json) :
    (findDrink (update_drink store id (.obj [("title", t)])).1 id).map (fun u => u.recipe)
      = some d.recipe ∧
    update_drink store id (.obj []) = (store, drinksEnvelope [d.long]) ∧
    (∃ u, findDrink (update_drink store id body).1 id = some u ∧
      (u.title ≠ d.title → u.title ≠ .str "") ∧
      (u.recipe ≠ d.recipe → u.recipe ≠ .arr [])) := by
  refine ⟨?_, ?_, ?_⟩
  · obtain ⟨u, hu, hcase⟩ := update_drink_find_result store id d [("title", t)] hd
    rw [hu]
    rcases hcase with rfl | rfl
    · rfl
    · simp only [Option.map_some']
      rw [applyUpdate_recipe_absent d (.obj [("title", t)]) rfl]
  · rw [update_drink_found store id d [] hd,
        show applyUpdate d (.obj []) = d from rfl]
    simp only [updateCommit_same_title store d d rfl]
    rw [replaceDrink_self store d hids]
  · cases body with
    | obj fields =>
      obtain ⟨u, hu, hcase⟩ := update_drink_find_result store id d fields hd
      refine ⟨u, hu, ?_, ?_⟩
      · intro hne
        rcases hcase with rfl | rfl
        · exact absurd rfl hne
        · rcases applyUpdate_title d (.obj fields) with h | h
          · exact absurd h hne
          · exact (truthy_ne _ h).1
      · intro hne
        rcases hcase with rfl | rfl
        · exact absurd rfl hne
        · rcases applyUpdate_recipe d (.obj fields) with h | h
          · exact absurd h hne
          · exact (truthy_ne _ h).2
    | null =>
      exact ⟨d, by simp [update_drink, hd], fun hne => absurd rfl hne, fun hne => absurd rfl hne⟩
    | bool b =>
      exact ⟨d, by simp [update_drink, hd], fun hne => absurd rfl hne, fun hne => absurd rfl hne⟩
    | num n =>
      exact ⟨d, by simp [update_drink, hd], fun hne => absurd rfl hne, fun hne => absurd rfl hne⟩
    | str s =>
      exact ⟨d, by simp [update_drink, hd], fun hne => absurd rfl hne, fun hne => absurd rfl hne⟩
    | arr xs =>
      exact ⟨d, by simp [update_drink, hd], fun hne => absurd rfl hne, fun hne => absurd rfl hne⟩

theorem C4_update_frame_witness :
    (findDrink (update_drink [sampleDrink] 1 (.obj [("title", .str "X")])).1 1).map
        (fun u => u.recipe) = some sampleDrink.recipe ∧
    update_drink [sampleDrink] 1 (.obj []) = ([sampleDrink], drinksEnvelope [sampleDrink.long]) :=
  ⟨(C4_update_frame [sampleDrink] 1 sampleDrink rfl
      (by intro x hx h2; simpa using hx) (.str "X") (.obj [])).1,
   (C4_update_frame [sampleDrink] 1 sampleDrink rfl
      (by intro x hx h2; simpa using hx) (.str "X") (.obj [])).2.1⟩

/-- C6: every failure of the create operation — missing body fields, a
title-uniqueness violation, or any other insert failure — yields the 400
bad-request envelope (the status is always 200 or 400, never 500) with the
store unchanged; in particular a create reusing the title of a stored item
fails that way and leaves the first item stored unchanged. -/
theorem C6_create_failure_policy (store : Store) (nextId : Nat) (body rq : Json)
    (d : Drink) (hd : d ∈ store)
    (hrq : body.get "recipe" = some rq) (hti : body.get "title" = some d.title) :
    (∀ b : Json,
      ((create_drink store nextId b).2.status = 200 ∨
       (create_drink store nextId b).2.status = 400) ∧
      ((create_drink store nextId b).2.status ≠ 200 →
        (create_drink store nextId b).2 = bad_request ∧
        (create_drink store nextId b).1 = store)) ∧
    (create_drink store nextId body).2 = bad_request ∧
    (create_drink store nextId body).1 = store ∧
    d ∈ (create_drink store nextId body).1 := by
  have hmain : ∀ b : Json,
      ((create_drink store nextId b).2.status = 200 ∨
       (create_drink store nextId b).2.status = 400) ∧
      ((create_drink store nextId b).2.status ≠ 200 →
        (create_drink store nextId b).2 = bad_request ∧
        (create_drink store nextId b).1 = store) := by
    intro b
    rcases hb1 : b.get "recipe" with _ | rq2
    · simp [create_drink, hb1, bad_request]
    · rcases hb2 : b.get "title" with _ | tt
      · simp [create_drink, hb1, hb2, bad_request]
      · rcases hb3 : insertDrink store ⟨nextId, tt, normalizeRecipe rq2⟩ with _ | st2
        · simp [create_drink, hb1, hb2, hb3, bad_request]
        · simp [create_drink, hb1, hb2, hb3, drinksEnvelope]
  have htaken : titleTaken store d.title = true := by
    unfold titleTaken
    rw [List.any_eq_true]
    exact ⟨d, hd, by simp⟩
  have hins : insertDrink store ⟨nextId, d.title, normalizeRecipe rq⟩ = none := by
    simp [insertDrink, htaken]
  have hkey : create_drink store nextId body = (store, bad_request) := by
    simp only [create_drink, hrq, hti, hins]
  exact ⟨hmain, by rw [hkey], by rw [hkey], by rw [hkey]; exact hd⟩

theorem C6_create_failure_policy_witness :
    (create_drink [sampleDrink] 2
        (.obj [("title", .str "Water"), ("recipe", .arr [singleEntry])])).2 = bad_request ∧
    (create_drink [sampleDrink] 2
        (.obj [("title", .str "Water"), ("recipe", .arr [singleEntry])])).1 = [sampleDrink] :=
  ⟨(C6_create_failure_policy [sampleDrink] 2
      (.obj [("title", .str "Water"), ("recipe", .arr [singleEntry])])
      (.arr [singleEntry]) sampleDrink (List.mem_singleton.mpr rfl) rfl rfl).2.1,
   (C6_create_failure_policy [sampleDrink] 2
      (.obj [("title", .str "Water"), ("recipe", .arr [singleEntry])])
      (.arr [singleEntry]) sampleDrink (List.mem_singleton.mpr rfl) rfl rfl).2.2.1⟩

/-- C7 counterexample: a create whose title is the empty string succeeds with
status 200 and persists the item — no emptiness check exists on the create
path — refuting the non-empty half of the claim. -/
theorem C7_empty_title_counterexample :
    (create_drink [] 1 (.obj [("title", .str ""), ("recipe", .arr [singleEntry])])).2.status = 200 ∧
    (create_drink [] 1 (.obj [("title", .str ""), ("recipe", .arr [singleEntry])])).1
      = [⟨1, .str "", .arr [singleEntry]⟩] := by
  decide

/-- C7 amended: title is required — a create whose body lacks the `title` key
fails with the 400 bad-request envelope and persists nothing; but an
empty-string title is not rejected: when no stored row already carries the
empty title, the create succeeds and persists the item. -/
theorem C7_title_policy (store : Store) (nextId : Nat) (body r : Json)
    (hmiss : body.get "title" = none) (hfree : titleTaken store (.str "") = false) :
    create_drink store nextId body = (store, bad_request) ∧
    (create_drink store nextId (.obj [("title", .str ""), ("recipe", r)])).2.status = 200 ∧
    (create_drink store nextId (.obj [("title", .str ""), ("recipe", r)])).1
      = store ++ [⟨nextId, .str "", normalizeRecipe r⟩] := by
  have hins : insertDrink store ⟨nextId, .str "", normalizeRecipe r⟩
      = some (store ++ [⟨nextId, .str "", normalizeRecipe r⟩]) := by
    simp [insertDrink, hfree]
  have hkey : create_drink store nextId (.obj [("title", .str ""), ("recipe", r)])
      = (store ++ [⟨nextId, .str "", normalizeRecipe r⟩],
         drinksEnvelope [Drink.long ⟨nextId, .str "", normalizeRecipe r⟩]) := by
    simp only [create_drink,
      show (Json.obj [("title", .str ""), ("recipe", r)]).get "recipe" = some r from rfl,
      show (Json.obj [("title", .str ""), ("recipe", r)]).get "title" = some (.str "") from rfl,
      hins]
  refine ⟨?_, by rw [hkey]; rfl, by rw [hkey]⟩
  rcases hb1 : body.get "recipe" with _ | rq
  · simp only [create_drink, hb1]
  · simp only [create_drink, hb1, hmiss]

theorem C7_title_policy_witness :
    create_drink [] 1 (.obj [("recipe", .arr [singleEntry])]) = ([], bad_request) ∧
    (create_drink [] 1 (.obj [("title", .str ""), ("recipe", .arr [singleEntry])])).2.status = 200 ∧
    (create_drink [] 1 (.obj [("title", .str ""), ("recipe", .arr [singleEntry])])).1
      = [⟨1, .str "", .arr [singleEntry]⟩] :=
  ⟨(C7_title_policy [] 1 (.obj [("recipe", .arr [singleEntry])]) (.arr [singleEntry]) rfl rfl).1,
   (C7_title_policy [] 1 (.obj [("recipe", .arr [singleEntry])]) (.arr [singleEntry]) rfl rfl).2.1,
   (C7_title_policy [] 1 (.obj [("recipe", .arr [singleEntry])]) (.arr [singleEntry]) rfl rfl).2.2⟩

/-- C8: deleting an existing id k returns 200 with success:true and the
deleted id, and no entry with id k appears in the drinks array of any
subsequent list-summary or list-detail response. -/
theorem C8_delete_then_list (store : Store) (k : Nat) (d : Drink)
    (hd : findDrink store k = some d) :
    (delete_drink store k).2
      = ⟨200, .obj [("success", .bool true), ("delete", .num (Int.ofNat k))]⟩ ∧
    (∃ l1 : List Json,
      (get_drinks (delete_drink store k).1).2.body.get "drinks" = some (.arr l1) ∧
      ∀ j ∈ l1, j.get "id" ≠ some (.num (Int.ofNat k))) ∧
    (∃ l2 : List Json,
      (get_drink_detail (delete_drink store k).1).2.body.get "drinks" = some (.arr l2) ∧
      ∀ j ∈ l2, j.get "id" ≠ some (.num (Int.ofNat k))) := by
  have hdel : delete_drink store k
      = (store.filter (fun x => x.id != k),
         ⟨200, .obj [("success", .bool true), ("delete", .num (Int.ofNat k))]⟩) := by
    simp only [delete_drink, hd]
  have h1 : (delete_drink store k).1 = store.filter (fun x : Drink => x.id != k) := by
    rw [hdel]
  have hmem : ∀ x : Drink, x ∈ store.filter (fun x : Drink => x.id != k) → x.id ≠ k := by
    intro x hx
    rw [List.mem_filter] at hx
    simpa using hx.2
  refine ⟨by rw [hdel], ?_, ?_⟩
  · rw [h1]
    refine ⟨_, rfl, ?_⟩
    intro j hj
    rw [List.mem_map] at hj
    obtain ⟨x, hx, rfl⟩ := hj
    intro hcontra
    rw [show (Drink.short x).get "id" = some (.num (Int.ofNat x.id)) from rfl] at hcontra
    injection hcontra with h2
    exact hmem x hx (Int.ofNat.inj (Json.num.inj h2))
  · rw [h1]
    refine ⟨_, rfl, ?_⟩
    intro j hj
    rw [List.mem_map] at hj
    obtain ⟨x, hx, rfl⟩ := hj
    intro hcontra
    rw [show (Drink.long x).get "id" = some (.num (Int.ofNat x.id)) from rfl] at hcontra
    injection hcontra with h2
    exact hmem x hx (Int.ofNat.inj (Json.num.inj h2))

theorem C8_delete_then_list_witness :
    (delete_drink [sampleDrink] 1).2
      = ⟨200, .obj [("success", .bool true), ("delete", .num (Int.ofNat 1))]⟩ :=
  (C8_delete_then_list [sampleDrink] 1 sampleDrink rfl).1

end DrinksApi
